import Mathlib

/-!
Verification of the `wt` worktree helper: a shallow embedding of its
CI-check aggregation logic, GitHub-Actions polling loop, and command-line
argument parser, together with theorems about the properties the design
documentation states for them.

The embedding follows the Go source: `CheckStatus`, `CheckStats`,
`isCheckComplete`, `isCheckSuccess`, `countCheckStatuses`, `analyzeChecks`,
`getCheckMarker` and the `gha` polling loop come from the gha module;
`isHelpRequested`, `parseCommand`, `parseHookFlag`, `parseArgs` and the
`main` dispatch come from the main module.
-/

namespace Wt

/-- A single CI check as reported by the provider (struct `CheckStatus`). -/
structure CheckStatus where
  name : String
  status : String
  conclusion : String
deriving DecidableEq

/-- GitHub Actions check status constant `CheckStatusQueued`. -/
def CheckStatusQueued : String := "QUEUED"

/-- GitHub Actions check status constant `CheckStatusInProgress`. -/
def CheckStatusInProgress : String := "IN_PROGRESS"

/-- GitHub Actions check status constant `CheckStatusCompleted`. -/
def CheckStatusCompleted : String := "COMPLETED"

/-- Check conclusion constant `CheckConclusionSuccess`. -/
def CheckConclusionSuccess : String := "SUCCESS"

/-- Check conclusion constant `CheckConclusionNeutral`. -/
def CheckConclusionNeutral : String := "NEUTRAL"

/-- Check conclusion constant `CheckConclusionSkipped`. -/
def CheckConclusionSkipped : String := "SKIPPED"

/-- Check conclusion constant `CheckConclusionFailure`. -/
def CheckConclusionFailure : String := "FAILURE"

/-- Check conclusion constant `CheckConclusionCancelled`. -/
def CheckConclusionCancelled : String := "CANCELLED"

/-- Detail marker constant `MarkerSuccess`. -/
def MarkerSuccess : String := "+"

/-- Detail marker constant `MarkerFailure`. -/
def MarkerFailure : String := "x"

/-- Detail marker constant `MarkerPending`. -/
def MarkerPending : String := " "

/-- Default hook script path constant `DefaultHook`. -/
def DefaultHook : String := ".worktree-hook"

/-- Default GHA timeout (60 minutes), in nanoseconds as Go durations are. -/
def DefaultGHATimeout : Nat := 3600000000000

/-- Default poll interval (30 seconds), in nanoseconds. -/
def DefaultPollInterval : Nat := 30000000000

/-- The tri-state outcome of analyzing a set of checks (`CheckResult`). -/
inductive CheckResult where
  | pending
  | success
  | failure
deriving DecidableEq

/-- Counters of check classifications (struct `CheckStats`). -/
structure CheckStats where
  passed : Nat
  failed : Nat
  pending : Nat
  total : Nat
deriving DecidableEq

/-- `CheckStats.String`: the one-line human summary of the stats. -/
def CheckStats.toString (cs : CheckStats) : String :=
  "Checks: " ++ Nat.repr (cs.passed + cs.failed) ++ "/" ++ Nat.repr cs.total ++
    " completed (" ++ Nat.repr cs.passed ++ " passed, " ++ Nat.repr cs.failed ++
    " failed, " ++ Nat.repr cs.pending ++ " pending)"

/-- `CheckStats.Result`: overall result with pending-dominates precedence. -/
def CheckStats.Result (cs : CheckStats) : CheckResult :=
  if cs.pending > 0 then CheckResult.pending
  else if cs.failed > 0 then CheckResult.failure
  else CheckResult.success

/-- `isCheckComplete`: the check's status is COMPLETED. -/
def isCheckComplete (check : CheckStatus) : Bool :=
  check.status == CheckStatusCompleted

/-- `isCheckSuccess`: the conclusion is SUCCESS, NEUTRAL or SKIPPED. -/
def isCheckSuccess (check : CheckStatus) : Bool :=
  check.conclusion == CheckConclusionSuccess ||
  check.conclusion == CheckConclusionNeutral ||
  check.conclusion == CheckConclusionSkipped

/-- One iteration of the counting loop inside `countCheckStatuses`. -/
def countOne (stats : CheckStats) (check : CheckStatus) : CheckStats :=
  if isCheckComplete check then
    if isCheckSuccess check then { stats with passed := stats.passed + 1 }
    else { stats with failed := stats.failed + 1 }
  else { stats with pending := stats.pending + 1 }

/-- `countCheckStatuses`: fold the per-check classification over the list,
starting from zero counters and `Total = len(checks)`. -/
def countCheckStatuses (checks : List CheckStatus) : CheckStats :=
  checks.foldl countOne
    { passed := 0, failed := 0, pending := 0, total := checks.length }

/-- `analyzeChecks`: empty collections are Pending with a fixed summary;
otherwise the result and summary are derived from the counters. -/
def analyzeChecks (checks : List CheckStatus) : CheckResult × String :=
  if checks.length = 0 then (CheckResult.pending, "No checks found yet...")
  else
    let stats := countCheckStatuses checks
    (stats.Result, stats.toString)

/-- `getCheckMarker`: the glyph shown next to a check in the detail view. -/
def getCheckMarker (check : CheckStatus) : String :=
  if !isCheckComplete check then MarkerPending
  else if check.conclusion == CheckConclusionSuccess then MarkerSuccess
  else if check.conclusion == CheckConclusionFailure then MarkerFailure
  else MarkerPending

/-- `getCheckStatusDisplay`: conclusion once completed, status before. -/
def getCheckStatusDisplay (check : CheckStatus) : String :=
  if isCheckComplete check then check.conclusion else check.status

/-! Specification-side counts, phrased directly as `List.countP` of the
classification predicates, to compare against the fold in the code. -/

/-- Number of records whose status is not COMPLETED. -/
def pendingCount (checks : List CheckStatus) : Nat :=
  checks.countP (fun c => !isCheckComplete c)

/-- Number of COMPLETED records with a passing conclusion. -/
def passedCount (checks : List CheckStatus) : Nat :=
  checks.countP (fun c => isCheckComplete c && isCheckSuccess c)

/-- Number of COMPLETED records with a non-passing conclusion. -/
def failedCount (checks : List CheckStatus) : Nat :=
  checks.countP (fun c => isCheckComplete c && !isCheckSuccess c)

/-! The `gha` polling loop. Time and the provider are modelled
extensionally: `elapsed k` is the wall-clock time elapsed since loop start
when cycle `k` begins, and `ghPRView k` is what the provider call would
return on cycle `k`. The loop is written with explicit fuel; `none` means
the fuel ran out before the loop terminated. Alongside the outcome the
model returns how many provider queries and how many sleeps the loop
performed, so that the query/sleep schedule is provable. -/

/-- The PR status returned by the provider (struct `PRStatus`). -/
structure PRStatus where
  number : Int
  state : String
  statusCheckRollup : List CheckStatus
deriving DecidableEq

/-- Terminal outcomes of `gha`. -/
inductive GhaOutcome where
  | timedOut (message : String)
  | providerFailed (message : String)
  | checksFailed
  | allPassed
deriving DecidableEq

/-- The timeout error message: "timeout: checks did not complete within"
followed by the configured duration. -/
def ghaTimeoutMessage (timeLimit : Nat) : String :=
  "timeout: checks did not complete within " ++ Nat.repr timeLimit

/-- The `for` loop inside `gha`: first the timeout test on the elapsed time
at the start of the cycle, then the provider query, then analysis; Pending
sleeps and loops, everything else returns. -/
def ghaLoop (timeLimit : Nat) (elapsed : Nat → Nat)
    (ghPRView : Nat → Except String PRStatus) :
    Nat → Nat → Nat → Nat → Option (GhaOutcome × Nat × Nat)
  | _, _, _, 0 => none
  | cycle, queries, sleeps, fuel + 1 =>
    if timeLimit < elapsed cycle then
      some (GhaOutcome.timedOut (ghaTimeoutMessage timeLimit), queries, sleeps)
    else
      match ghPRView cycle with
      | Except.error e => some (GhaOutcome.providerFailed e, queries + 1, sleeps)
      | Except.ok status =>
        match (analyzeChecks status.statusCheckRollup).1 with
        | CheckResult.success => some (GhaOutcome.allPassed, queries + 1, sleeps)
        | CheckResult.failure => some (GhaOutcome.checksFailed, queries + 1, sleeps)
        | CheckResult.pending =>
          ghaLoop timeLimit elapsed ghPRView (cycle + 1) (queries + 1) (sleeps + 1) fuel

/-- `gha`: run the polling loop from cycle 0 with zeroed counters. -/
def gha (timeLimit : Nat) (elapsed : Nat → Nat)
    (ghPRView : Nat → Except String PRStatus) (fuel : Nat) :
    Option (GhaOutcome × Nat × Nat) :=
  ghaLoop timeLimit elapsed ghPRView 0 0 0 fuel

/-! The command-line grammar (`main` module, current snapshot: commands
create, remove, jump, list, gha, completion, __complete; unknown first
token is an error). -/

/-- `validCommands`: all valid command names. -/
def validCommands : List String :=
  ["create", "remove", "jump", "list", "gha", "completion", "__complete"]

/-- `isValidCommand`: membership test over `validCommands`. -/
def isValidCommand (s : String) : Bool :=
  validCommands.any (fun cmd => s == cmd)

/-- `isHelpRequested`: true when any argument is `-h` or `--help`. -/
def isHelpRequested (args : List String) : Bool :=
  args.any (fun arg => arg == "-h" || arg == "--help")

deriving instance DecidableEq for Except

/-- Parse failures: the show-help sentinel, or a message (`fmt.Errorf`). -/
inductive ParseError where
  | showHelp
  | failMsg (text : String)
deriving DecidableEq

/-- `parseCommand`: consume a valid leading command name or reject. -/
def parseCommand (args : List String) : Except ParseError (String × Nat) :=
  match args with
  | [] => Except.ok ("", 0)
  | first :: _ =>
    if isValidCommand first then Except.ok (first, 1)
    else Except.error (ParseError.failMsg ("unknown command: " ++ first))

/-- `len(s) > 0 && s[0] == '-'`: the token looks like a flag. -/
def startsWithDash (s : String) : Bool :=
  match s.data with
  | [] => false
  | c :: _ => c == '-'

/-- The scanning loop of `parseHookFlag`, walking the suffix of the
arguments that starts at the current index. -/
def parseHookFlagAux : List String → Nat → String → Except ParseError (Nat × String)
  | [], idx, hookPath => Except.ok (idx, hookPath)
  | arg :: rest, idx, hookPath =>
    if arg == "--hook" then
      match rest with
      | [] => Except.error (ParseError.failMsg "--hook requires a path argument")
      | path :: rest2 => parseHookFlagAux rest2 (idx + 2) path
    else if startsWithDash arg then
      Except.error (ParseError.failMsg ("unknown flag " ++ arg))
    else
      Except.ok (idx, hookPath)

/-- `parseHookFlag`: scan for `--hook <path>` pairs from `idx`, the last
occurrence overwriting the hook path, stopping at the first token that is
neither `--hook` nor a flag. -/
def parseHookFlag (args : List String) (idx : Nat) (defaultHook : String) :
    Except ParseError (Nat × String) :=
  parseHookFlagAux (args.drop idx) idx defaultHook

/-- `args[idx]`; in the source every access is guarded by a bounds test. -/
def argAt (args : List String) (idx : Nat) : String :=
  args.getD idx ""

/-- A successfully parsed invocation: the `(cmd, name, hookPath)` triple
returned by `parseArgs`. -/
structure Invocation where
  cmd : String
  name : String
  hookPath : String
deriving DecidableEq

/-- `parseArgs`: the full command-line grammar. -/
def parseArgs (args : List String) : Except ParseError Invocation :=
  if args.length = 0 then Except.error ParseError.showHelp
  else if isHelpRequested args then Except.error ParseError.showHelp
  else
    match parseCommand args with
    | Except.error e => Except.error e
    | Except.ok (cmd, idx0) =>
      match parseHookFlag args idx0 DefaultHook with
      | Except.error e => Except.error e
      | Except.ok (idx, hookPath) =>
        if cmd == "jump" then
          if idx < args.length then
            if idx + 1 < args.length then
              Except.error (ParseError.failMsg
                ("unexpected argument: " ++ argAt args (idx + 1)))
            else Except.ok ⟨cmd, argAt args idx, hookPath⟩
          else Except.ok ⟨cmd, "", hookPath⟩
        else if cmd == "gha" then
          if idx < args.length then
            Except.error (ParseError.failMsg
              ("unexpected argument: " ++ argAt args idx))
          else Except.ok ⟨cmd, "", hookPath⟩
        else if cmd == "list" then
          if idx < args.length then
            Except.error (ParseError.failMsg
              ("unexpected argument: " ++ argAt args idx))
          else Except.ok ⟨cmd, "", hookPath⟩
        else if cmd == "completion" then
          if args.length ≤ idx then
            Except.error (ParseError.failMsg "shell name required (bash, zsh, fish)")
          else if idx + 1 < args.length then
            Except.error (ParseError.failMsg
              ("unexpected argument: " ++ argAt args (idx + 1)))
          else Except.ok ⟨cmd, argAt args idx, hookPath⟩
        else if cmd == "__complete" then
          if args.length ≤ idx then
            Except.error (ParseError.failMsg "subcommand required")
          else Except.ok ⟨cmd, argAt args idx, hookPath⟩
        else if cmd == "remove" && args.length ≤ idx then
          Except.ok ⟨cmd, "", hookPath⟩
        else if args.length ≤ idx then
          Except.error (ParseError.failMsg "branch name required")
        else if idx + 1 < args.length then
          Except.error (ParseError.failMsg
            ("unexpected argument: " ++ argAt args (idx + 1)))
        else Except.ok ⟨cmd, argAt args idx, hookPath⟩

/-- What `main` does with the result of parsing, before dispatching. -/
inductive MainAction where
  | helpStdoutExitZero
  | errorExitOne (message : String)
  | dispatch (inv : Invocation)
deriving DecidableEq

/-- `main`: show-help prints usage on standard output and exits 0; other
errors print `error: <message>` on standard error and exit 1; a parsed
invocation is dispatched to its command handler. -/
def mainAction (args : List String) : MainAction :=
  match parseArgs args with
  | Except.error ParseError.showHelp => MainAction.helpStdoutExitZero
  | Except.error (ParseError.failMsg t) => MainAction.errorExitOne ("error: " ++ t)
  | Except.ok inv => MainAction.dispatch inv

/-! Helper lemmas relating the counting fold to `List.countP`. -/

lemma foldl_countOne (checks : List CheckStatus) (s : CheckStats) :
    checks.foldl countOne s =
      ⟨s.passed + passedCount checks, s.failed + failedCount checks,
       s.pending + pendingCount checks, s.total⟩ := by
  induction checks generalizing s with
  | nil => simp [passedCount, failedCount, pendingCount]
  | cons c cs ih =>
    rw [List.foldl_cons, ih]
    unfold countOne
    by_cases hc : isCheckComplete c <;> by_cases hs : isCheckSuccess c <;>
      simp [passedCount, failedCount, pendingCount, List.countP_cons, hc, hs,
        CheckStats.mk.injEq] <;> omega

lemma countCheckStatuses_eq (checks : List CheckStatus) :
    countCheckStatuses checks =
      ⟨passedCount checks, failedCount checks, pendingCount checks,
       checks.length⟩ := by
  unfold countCheckStatuses
  rw [foldl_countOne]
  simp

lemma counts_partition (checks : List CheckStatus) :
    passedCount checks + failedCount checks + pendingCount checks =
      checks.length := by
  induction checks with
  | nil => simp [passedCount, failedCount, pendingCount]
  | cons c cs ih =>
    simp only [passedCount, failedCount, pendingCount, List.countP_cons,
      List.length_cons] at ih ⊢
    by_cases hc : isCheckComplete c <;> by_cases hs : isCheckSuccess c <;>
      simp [hc, hs] <;> omega

lemma analyzeChecks_fst (checks : List CheckStatus) (h : checks ≠ []) :
    (analyzeChecks checks).1 = (countCheckStatuses checks).Result := by
  have hlen : ¬ checks.length = 0 := by
    simpa [List.length_eq_zero] using h
  simp [analyzeChecks, hlen]

/-- Claim C1: for every non-empty list of check records the aggregate
outcome follows the exact precedence: a positive pending count gives
Pending even when failures are present; with no pending records a positive
failed count gives Failure; otherwise the outcome is Success. -/
theorem aggregate_precedence (checks : List CheckStatus) (h : checks ≠ []) :
    (0 < pendingCount checks →
      (analyzeChecks checks).1 = CheckResult.pending) ∧
    (pendingCount checks = 0 → 0 < failedCount checks →
      (analyzeChecks checks).1 = CheckResult.failure) ∧
    (pendingCount checks = 0 → failedCount checks = 0 →
      (analyzeChecks checks).1 = CheckResult.success) := by
  have key := analyzeChecks_fst checks h
  rw [countCheckStatuses_eq] at key
  refine ⟨fun h1 => ?_, fun h1 h2 => ?_, fun h1 h2 => ?_⟩
  · rw [key]
    simp [CheckStats.Result, h1]
  · rw [key]
    simp [CheckStats.Result, h1, h2]
  · rw [key]
    simp [CheckStats.Result, h1, h2]

/-- Witness for C1: a pending record dominates an already-failed record. -/
theorem aggregate_precedence_witness :
    (analyzeChecks [⟨"build", "IN_PROGRESS", ""⟩,
      ⟨"test", "COMPLETED", "FAILURE"⟩]).1 = CheckResult.pending :=
  (aggregate_precedence _ (by decide)).1 (by decide)

/-- Claim C2: appending one record to a collection increments exactly one
counter of the derived stats, according to the record classification: a
status other than COMPLETED counts as pending regardless of conclusion; a
COMPLETED status with conclusion SUCCESS, NEUTRAL or SKIPPED counts as
passed; a COMPLETED status with any other conclusion counts as failed. -/
theorem classification_per_record (checks : List CheckStatus)
    (c : CheckStatus) :
    countCheckStatuses (checks ++ [c]) =
      (if c.status ≠ CheckStatusCompleted then
        ⟨(countCheckStatuses checks).passed, (countCheckStatuses checks).failed,
         (countCheckStatuses checks).pending + 1,
         (countCheckStatuses checks).total + 1⟩
      else if c.conclusion = CheckConclusionSuccess ∨
          c.conclusion = CheckConclusionNeutral ∨
          c.conclusion = CheckConclusionSkipped then
        ⟨(countCheckStatuses checks).passed + 1,
         (countCheckStatuses checks).failed,
         (countCheckStatuses checks).pending,
         (countCheckStatuses checks).total + 1⟩
      else
        ⟨(countCheckStatuses checks).passed,
         (countCheckStatuses checks).failed + 1,
         (countCheckStatuses checks).pending,
         (countCheckStatuses checks).total + 1⟩) := by
  by_cases h1 : c.status = CheckStatusCompleted
  · by_cases h2 : c.conclusion = CheckConclusionSuccess ∨
        c.conclusion = CheckConclusionNeutral ∨
        c.conclusion = CheckConclusionSkipped
    · have hb1 : isCheckComplete c = true := by
        simp [isCheckComplete, h1]
      have hb2 : isCheckSuccess c = true := by
        rcases h2 with h | h | h <;> simp [isCheckSuccess, h]
      simp [countCheckStatuses_eq, passedCount, failedCount, pendingCount,
        List.countP_append, List.countP_cons, hb1, hb2, h1, h2]
    · have hb1 : isCheckComplete c = true := by
        simp [isCheckComplete, h1]
      have hb2 : isCheckSuccess c = false := by
        push_neg at h2
        simp [isCheckSuccess, h2.1, h2.2.1, h2.2.2]
      simp [countCheckStatuses_eq, passedCount, failedCount, pendingCount,
        List.countP_append, List.countP_cons, hb1, hb2, h1, h2]
  · have hb1 : isCheckComplete c = false := by
      simp [isCheckComplete, h1]
    simp [countCheckStatuses_eq, passedCount, failedCount, pendingCount,
      List.countP_append, List.countP_cons, hb1, h1]

/-- Claim C3: the aggregator maps the empty collection to Pending with the
exact summary "No checks found yet...", and never to Success or Failure. -/
theorem analyzeChecks_empty :
    analyzeChecks [] = (CheckResult.pending, "No checks found yet...") ∧
    (analyzeChecks []).1 ≠ CheckResult.success ∧
    (analyzeChecks []).1 ≠ CheckResult.failure :=
  ⟨rfl, by decide, by decide⟩

/-- Claim C4: for every non-empty collection the derived stats satisfy
passed + failed + pending = total, with total the collection's length. -/
theorem stats_partition (checks : List CheckStatus) (h : checks ≠ []) :
    (countCheckStatuses checks).passed + (countCheckStatuses checks).failed +
        (countCheckStatuses checks).pending =
      (countCheckStatuses checks).total ∧
    (countCheckStatuses checks).total = checks.length := by
  rw [countCheckStatuses_eq]
  exact ⟨counts_partition checks, rfl⟩

/-- Witness for C4 at a concrete three-record collection. -/
theorem stats_partition_witness :
    ((countCheckStatuses [⟨"a", "COMPLETED", "SUCCESS"⟩,
        ⟨"b", "COMPLETED", "FAILURE"⟩, ⟨"c", "IN_PROGRESS", ""⟩]).passed +
      (countCheckStatuses [⟨"a", "COMPLETED", "SUCCESS"⟩,
        ⟨"b", "COMPLETED", "FAILURE"⟩, ⟨"c", "IN_PROGRESS", ""⟩]).failed +
        (countCheckStatuses [⟨"a", "COMPLETED", "SUCCESS"⟩,
          ⟨"b", "COMPLETED", "FAILURE"⟩, ⟨"c", "IN_PROGRESS", ""⟩]).pending =
        (countCheckStatuses [⟨"a", "COMPLETED", "SUCCESS"⟩,
          ⟨"b", "COMPLETED", "FAILURE"⟩, ⟨"c", "IN_PROGRESS", ""⟩]).total) ∧
      (countCheckStatuses [⟨"a", "COMPLETED", "SUCCESS"⟩,
        ⟨"b", "COMPLETED", "FAILURE"⟩, ⟨"c", "IN_PROGRESS", ""⟩]).total =
      ([⟨"a", "COMPLETED", "SUCCESS"⟩, ⟨"b", "COMPLETED", "FAILURE"⟩,
        ⟨"c", "IN_PROGRESS", ""⟩] : List CheckStatus).length :=
  stats_partition _ (by decide)

/-- Claim C9: the detail marker is the success glyph exactly when the check
is COMPLETED with conclusion SUCCESS, the failure glyph exactly when it is
COMPLETED with conclusion FAILURE, and the blank glyph in every other
case. -/
theorem marker_mapping (check : CheckStatus) :
    (getCheckMarker check = MarkerSuccess ↔
      check.status = CheckStatusCompleted ∧
        check.conclusion = CheckConclusionSuccess) ∧
    (getCheckMarker check = MarkerFailure ↔
      check.status = CheckStatusCompleted ∧
        check.conclusion = CheckConclusionFailure) ∧
    (¬(check.status = CheckStatusCompleted ∧
        (check.conclusion = CheckConclusionSuccess ∨
          check.conclusion = CheckConclusionFailure)) →
      getCheckMarker check = MarkerPending) := by
  by_cases h1 : check.status = CheckStatusCompleted
  · by_cases h2 : check.conclusion = CheckConclusionSuccess
    · have gm : getCheckMarker check = MarkerSuccess := by
        simp [getCheckMarker, isCheckComplete, h1, h2]
      refine ⟨iff_of_true gm ⟨h1, h2⟩, ?_, fun hn => absurd ⟨h1, Or.inl h2⟩ hn⟩
      rw [gm]
      exact iff_of_false (by decide)
        (fun hf => absurd (h2.symm.trans hf.2) (by decide))
    · by_cases h3 : check.conclusion = CheckConclusionFailure
      · have gm : getCheckMarker check = MarkerFailure := by
          simp [getCheckMarker, isCheckComplete, h1, h2, h3,
            CheckConclusionSuccess, CheckConclusionFailure]
        refine ⟨?_, iff_of_true gm ⟨h1, h3⟩, fun hn => absurd ⟨h1, Or.inr h3⟩ hn⟩
        rw [gm]
        exact iff_of_false (by decide) (fun hf => h2 hf.2)
      · have gm : getCheckMarker check = MarkerPending := by
          simp [getCheckMarker, isCheckComplete, h1, h2, h3]
        rw [gm]
        exact ⟨iff_of_false (by decide) (fun hf => h2 hf.2),
          iff_of_false (by decide) (fun hf => h3 hf.2), fun _ => rfl⟩
  · have gm : getCheckMarker check = MarkerPending := by
      simp [getCheckMarker, isCheckComplete, h1]
    rw [gm]
    exact ⟨iff_of_false (by decide) (fun hf => h1 hf.1),
      iff_of_false (by decide) (fun hf => h1 hf.1), fun _ => rfl⟩

/-- Witness for C9: a completed-but-skipped check gets the blank glyph. -/
theorem marker_mapping_witness :
    getCheckMarker ⟨"lint", "COMPLETED", "SKIPPED"⟩ = MarkerPending :=
  (marker_mapping ⟨"lint", "COMPLETED", "SKIPPED"⟩).2.2 (by decide)

/-- One-step unfolding of the polling loop when fuel remains. -/
lemma ghaLoop_succ (timeLimit : Nat) (elapsed : Nat → Nat)
    (ghPRView : Nat → Except String PRStatus)
    (cycle queries sleeps fuel : Nat) :
    ghaLoop timeLimit elapsed ghPRView cycle queries sleeps (fuel + 1) =
      (if timeLimit < elapsed cycle then
        some (GhaOutcome.timedOut (ghaTimeoutMessage timeLimit),
          queries, sleeps)
      else
        match ghPRView cycle with
        | Except.error e =>
          some (GhaOutcome.providerFailed e, queries + 1, sleeps)
        | Except.ok status =>
          match (analyzeChecks status.statusCheckRollup).1 with
          | CheckResult.success =>
            some (GhaOutcome.allPassed, queries + 1, sleeps)
          | CheckResult.failure =>
            some (GhaOutcome.checksFailed, queries + 1, sleeps)
          | CheckResult.pending =>
            ghaLoop timeLimit elapsed ghPRView
              (cycle + 1) (queries + 1) (sleeps + 1) fuel) := rfl

/-- Claim C5: the timeout test happens before the provider query. If the
elapsed time at a cycle start exceeds the configured limit, the loop
returns the timeout error carrying the configured duration with the query
and sleep counters exactly as they were on entry, for every provider: the
provider is not queried on that cycle nor on any later one. -/
theorem timeout_before_query (timeLimit : Nat) (elapsed : Nat → Nat)
    (ghPRView : Nat → Except String PRStatus)
    (cycle queries sleeps fuel : Nat)
    (h : timeLimit < elapsed cycle) :
    ghaLoop timeLimit elapsed ghPRView cycle queries sleeps (fuel + 1) =
      some (GhaOutcome.timedOut
          ("timeout: checks did not complete within " ++ Nat.repr timeLimit),
        queries, sleeps) := by
  rw [ghaLoop_succ, if_pos h]
  rfl

/-- Witness for C5: with the default 60-minute limit already exceeded at
loop start, the loop times out without consuming the provider. -/
theorem timeout_before_query_witness :
    ghaLoop DefaultGHATimeout (fun _ => DefaultGHATimeout + 1)
        (fun _ => Except.error "provider must not be called") 0 0 0 1 =
      some (GhaOutcome.timedOut
          ("timeout: checks did not complete within " ++
            Nat.repr DefaultGHATimeout),
        0, 0) :=
  timeout_before_query DefaultGHATimeout (fun _ => DefaultGHATimeout + 1)
    (fun _ => Except.error "provider must not be called") 0 0 0 0
    (Nat.lt_succ_self _)

/-- The provider of the three-poll scenario: the build check is in
progress on the first two queries and completes successfully on the
third. -/
def threePollView : Nat → Except String PRStatus := fun n =>
  Except.ok ⟨123, "OPEN",
    [if n < 2 then ⟨"build", CheckStatusInProgress, ""⟩
     else ⟨"build", CheckStatusCompleted, CheckConclusionSuccess⟩]⟩

/-- Claim C6: against `threePollView`, with the timeout never reached
during the first three cycles, the loop performs exactly 3 provider
queries, sleeps exactly twice, and returns success. -/
theorem three_poll_scenario (timeLimit : Nat) (elapsed : Nat → Nat)
    (fuel : Nat) (h : ∀ n, n < 3 → elapsed n ≤ timeLimit) :
    gha timeLimit elapsed threePollView (fuel + 3) =
      some (GhaOutcome.allPassed, 3, 2) := by
  have h0 : ¬ timeLimit < elapsed 0 := Nat.not_lt.mpr (h 0 (by omega))
  have h1 : ¬ timeLimit < elapsed 1 := Nat.not_lt.mpr (h 1 (by omega))
  have h2 : ¬ timeLimit < elapsed 2 := Nat.not_lt.mpr (h 2 (by omega))
  show ghaLoop timeLimit elapsed threePollView 0 0 0 ((fuel + 2) + 1) = _
  rw [ghaLoop_succ, if_neg h0]
  show ghaLoop timeLimit elapsed threePollView 1 1 1 ((fuel + 1) + 1) = _
  rw [ghaLoop_succ, if_neg h1]
  show ghaLoop timeLimit elapsed threePollView 2 2 2 (fuel + 1) = _
  rw [ghaLoop_succ, if_neg h2]
  rfl

/-- Witness for C6 at a concrete clock that never reaches the limit. -/
theorem three_poll_scenario_witness :
    gha DefaultGHATimeout (fun _ => 0) threePollView 3 =
      some (GhaOutcome.allPassed, 3, 2) :=
  three_poll_scenario DefaultGHATimeout (fun _ => 0) 0
    (fun _ _ => Nat.zero_le _)

/-! Helper lemmas for the argument grammar. -/

lemma flag_beq_false {s t : String} (hs : startsWithDash s = false)
    (ht : startsWithDash t = true) : (s == t) = false := by
  cases h : s == t
  · rfl
  · have hst : s = t := eq_of_beq h
    rw [hst, ht] at hs
    exact absurd hs (by decide)

lemma hook_beq_false {s : String} (hs : startsWithDash s = false) :
    (s == "--hook") = false :=
  flag_beq_false hs (by decide)

lemma helpShort_beq_false {s : String} (hs : startsWithDash s = false) :
    (s == "-h") = false :=
  flag_beq_false hs (by decide)

lemma helpLong_beq_false {s : String} (hs : startsWithDash s = false) :
    (s == "--help") = false :=
  flag_beq_false hs (by decide)

/-- Claim C7: any non-empty argument list containing `-h` or `--help` at
any position parses to the show-help sentinel, and `main` then prints the
usage text on standard output and exits with code 0. -/
theorem help_short_circuits (args : List String) (hne : args ≠ [])
    (hmem : "-h" ∈ args ∨ "--help" ∈ args) :
    parseArgs args = Except.error ParseError.showHelp ∧
    mainAction args = MainAction.helpStdoutExitZero := by
  have hhelp : isHelpRequested args = true := by
    rcases hmem with hm | hm
    · exact List.any_eq_true.mpr ⟨"-h", hm, by decide⟩
    · exact List.any_eq_true.mpr ⟨"--help", hm, by decide⟩
  have hlen : ¬ args.length = 0 := by
    simpa [List.length_eq_zero] using hne
  have hp : parseArgs args = Except.error ParseError.showHelp := by
    simp [parseArgs, hlen, hhelp]
  exact ⟨hp, by simp [mainAction, hp]⟩

/-- Witness for C7: a help flag after a command and a branch name. -/
theorem help_short_circuits_witness :
    parseArgs ["create", "feat", "--help"] =
        Except.error ParseError.showHelp ∧
    mainAction ["create", "feat", "--help"] =
      MainAction.helpStdoutExitZero :=
  help_short_circuits ["create", "feat", "--help"] (by decide)
    (Or.inr (by decide))

/-- Counterexample to claim C8 as stated: for the `__complete` command a
residual token after the subcommand name is NOT rejected; parsing succeeds
and silently ignores it. -/
theorem complete_residual_token_accepted :
    parseArgs ["__complete", "remove", "extra"] =
        Except.ok ⟨"__complete", "remove", ".worktree-hook"⟩ ∧
    parseArgs ["__complete", "remove", "extra"] ≠
      Except.error (ParseError.failMsg "unexpected argument: extra") :=
  ⟨by rfl, by decide⟩

/-- Claim C8 as amended: every command except `__complete` rejects a
residual unconsumed token with an "unexpected argument: <token>" error
naming that token; `__complete` accepts and silently ignores residual
tokens after its subcommand argument. -/
theorem unexpected_argument_policy (name extra : String)
    (hn : startsWithDash name = false) (he : startsWithDash extra = false) :
    parseArgs ["create", name, extra] =
        Except.error (ParseError.failMsg ("unexpected argument: " ++ extra)) ∧
    parseArgs ["remove", name, extra] =
        Except.error (ParseError.failMsg ("unexpected argument: " ++ extra)) ∧
    parseArgs ["jump", name, extra] =
        Except.error (ParseError.failMsg ("unexpected argument: " ++ extra)) ∧
    parseArgs ["completion", name, extra] =
        Except.error (ParseError.failMsg ("unexpected argument: " ++ extra)) ∧
    parseArgs ["gha", extra] =
        Except.error (ParseError.failMsg ("unexpected argument: " ++ extra)) ∧
    parseArgs ["list", extra] =
        Except.error (ParseError.failMsg ("unexpected argument: " ++ extra)) ∧
    parseArgs ["__complete", name, extra] =
      Except.ok ⟨"__complete", name, DefaultHook⟩ := by
  have n1 := hook_beq_false hn
  have n2 := helpShort_beq_false hn
  have n3 := helpLong_beq_false hn
  have x1 := hook_beq_false he
  have x2 := helpShort_beq_false he
  have x3 := helpLong_beq_false he
  refine ⟨?_, ?_, ?_, ?_, ?_, ?_, ?_⟩ <;>
    simp [parseArgs, isHelpRequested, parseCommand, isValidCommand,
      validCommands, parseHookFlag, parseHookFlagAux, argAt,
      n1, n2, n3, x1, x2, x3, hn, he]

/-- Witness for the amended C8 at concrete tokens. -/
theorem unexpected_argument_policy_witness :
    parseArgs ["create", "feat", "stray"] =
        Except.error
          (ParseError.failMsg ("unexpected argument: " ++ "stray")) ∧
    parseArgs ["remove", "feat", "stray"] =
        Except.error
          (ParseError.failMsg ("unexpected argument: " ++ "stray")) ∧
    parseArgs ["jump", "feat", "stray"] =
        Except.error
          (ParseError.failMsg ("unexpected argument: " ++ "stray")) ∧
    parseArgs ["completion", "feat", "stray"] =
        Except.error
          (ParseError.failMsg ("unexpected argument: " ++ "stray")) ∧
    parseArgs ["gha", "stray"] =
        Except.error
          (ParseError.failMsg ("unexpected argument: " ++ "stray")) ∧
    parseArgs ["list", "stray"] =
        Except.error
          (ParseError.failMsg ("unexpected argument: " ++ "stray")) ∧
    parseArgs ["__complete", "feat", "stray"] =
      Except.ok ⟨"__complete", "feat", DefaultHook⟩ :=
  unexpected_argument_policy "feat" "stray" (by decide) (by decide)

/-- Claim C10: when `--hook` appears twice before the positional name, the
hook-flag scan succeeds and keeps only the value after the last
occurrence, and a full `create` parse returns that value as the hook path;
the earlier value is discarded. -/
theorem hook_last_occurrence_wins (a b name defaultHook : String)
    (hn : startsWithDash name = false)
    (ha1 : a ≠ "-h") (ha2 : a ≠ "--help")
    (hb1 : b ≠ "-h") (hb2 : b ≠ "--help") :
    parseHookFlag ["--hook", a, "--hook", b, name] 0 defaultHook =
        Except.ok (4, b) ∧
    parseArgs ["create", "--hook", a, "--hook", b, name] =
      Except.ok ⟨"create", name, b⟩ := by
  have n1 := hook_beq_false hn
  have n2 := helpShort_beq_false hn
  have n3 := helpLong_beq_false hn
  have a1 : (a == "-h") = false := beq_eq_false_iff_ne.mpr ha1
  have a2 : (a == "--help") = false := beq_eq_false_iff_ne.mpr ha2
  have b1 : (b == "-h") = false := beq_eq_false_iff_ne.mpr hb1
  have b2 : (b == "--help") = false := beq_eq_false_iff_ne.mpr hb2
  constructor
  · simp [parseHookFlag, parseHookFlagAux, n1, hn]
  · simp [parseArgs, isHelpRequested, parseCommand, isValidCommand,
      validCommands, parseHookFlag, parseHookFlagAux, argAt,
      n1, n2, n3, a1, a2, b1, b2, hn]

/-- Witness for C10: the first hook value is discarded, the second kept. -/
theorem hook_last_occurrence_wins_witness :
    parseHookFlag ["--hook", "first.sh", "--hook", "second.sh", "feat"] 0
        ".worktree-hook" = Except.ok (4, "second.sh") ∧
    parseArgs ["create", "--hook", "first.sh", "--hook", "second.sh",
        "feat"] =
      Except.ok ⟨"create", "feat", "second.sh"⟩ :=
  hook_last_occurrence_wins "first.sh" "second.sh" "feat" ".worktree-hook"
    (by decide) (by decide) (by decide) (by decide) (by decide)

end Wt
